import Mathlib

/-!
Shallow embedding of the delivery-reconciliation core of the digital-billbook
application: the delivery reconciliation calculator, the delivery-batch
creation flow (`DeliveryBatchForm` in `src/components/InvoiceForm.tsx`),
the completion check (`InvoiceForm.tsx` / the delivery receipt component),
and the retention cleanup job (`supabase/functions/cleanup-old-files`).

Quantities are JS numbers holding integers, embedded as `Int`; prices are
embedded as `Rat`.
-/

/-- A row of `transaction_items` as fetched by `loadData`
(interface `TransactionItem` in `InvoiceForm.tsx`). -/
structure TransactionItem where
  id : String
  product_id : String
  product_name : String
  quantity : Int
  unit_price : Rat
  subtotal : Rat
deriving DecidableEq

/-- A row of `delivery_batch_items` as selected by `loadData`
(`select("product_name, quantity")`). -/
structure BatchItemRow where
  product_name : String
  quantity : Int
deriving DecidableEq

/-- Interface `DeliveredItem` in `InvoiceForm.tsx`: one entry of the
per-product aggregation of delivered quantities. -/
structure DeliveredItem where
  product_name : String
  total_delivered : Int
deriving DecidableEq

/-- One step of the aggregation loop in `loadData`:
`delivered[item.product_name] = (delivered[item.product_name] || 0) + item.quantity`
on a JS object represented by its (unique-keyed, insertion-ordered) entries. -/
def addDelivered (acc : List DeliveredItem) (row : BatchItemRow) : List DeliveredItem :=
  if acc.any (fun d => d.product_name == row.product_name) then
    acc.map (fun d =>
      if d.product_name == row.product_name then
        { d with total_delivered := d.total_delivered + row.quantity }
      else d)
  else
    acc ++ [{ product_name := row.product_name, total_delivered := row.quantity }]

/-- `loadData`: aggregate delivered quantities by product name over all batch
items of the transaction, then `Object.entries` the resulting object. -/
def aggregateDelivered (batchItems : List BatchItemRow) : List DeliveredItem :=
  batchItems.foldl addDelivered []

/-- `getDeliveredQuantity` in `InvoiceForm.tsx`:
`deliveredItems.find((d) => d.product_name === productName)?.total_delivered || 0`. -/
def getDeliveredQuantity (deliveredItems : List DeliveredItem) (productName : String) : Int :=
  match deliveredItems.find? (fun d => d.product_name == productName) with
  | some found => found.total_delivered
  | none => 0

/-- `getRemainingQuantity` in `InvoiceForm.tsx`:
`item.quantity - getDeliveredQuantity(item.product_name)`. -/
def getRemainingQuantity (deliveredItems : List DeliveredItem) (item : TransactionItem) : Int :=
  item.quantity - getDeliveredQuantity deliveredItems item.product_name

/-- Spec-side definition (`deliveredQuantityFor` of the specification): sum of
`deliveredQuantity` across all entries whose product name matches exactly. -/
def deliveredQuantityForSpec (batchItems : List BatchItemRow) (productName : String) : Int :=
  ((batchItems.filter (fun b => b.product_name == productName)).map (fun b => b.quantity)).sum

/-- Spec-side definition (`remainingQuantityFor` of the claim): ordered minus
delivered, clamped at 0. -/
def remainingQuantitySpec (batchItems : List BatchItemRow) (item : TransactionItem) : Int :=
  max 0 (item.quantity - deliveredQuantityForSpec batchItems item.product_name)

/-- The completion check of the delivery receipt component
(`setIsComplete(totalDelivered >= totalOrdered)`), also re-evaluated with the
same aggregate sums by `handleSubmit` before the status update. -/
def isOrderComplete (txItems : List TransactionItem)
    (allDeliveredItems : List BatchItemRow) : Bool :=
  let totalOrdered : Int := (txItems.map (fun item => item.quantity)).sum
  let totalDelivered : Int := (allDeliveredItems.map (fun item => item.quantity)).sum
  decide (totalDelivered ≥ totalOrdered)

/-! ### Aggregation bridge lemmas -/

theorem getDeliveredQuantity_nil (name : String) : getDeliveredQuantity [] name = 0 := rfl

theorem getDeliveredQuantity_cons (d : DeliveredItem) (rest : List DeliveredItem)
    (name : String) :
    getDeliveredQuantity (d :: rest) name
      = if d.product_name = name then d.total_delivered
        else getDeliveredQuantity rest name := by
  unfold getDeliveredQuantity
  by_cases h : d.product_name = name
  · rw [List.find?_cons_of_pos _ (by simpa using h), if_pos h]
  · rw [List.find?_cons_of_neg _ (by simpa using h), if_neg h]

/-- Updating entries whose key does not occur leaves the list unchanged. -/
theorem map_update_eq_self (l : List DeliveredItem) (row : BatchItemRow)
    (h : ∀ d ∈ l, d.product_name ≠ row.product_name) :
    l.map (fun d =>
      if d.product_name == row.product_name then
        { d with total_delivered := d.total_delivered + row.quantity }
      else d) = l := by
  induction l with
  | nil => rfl
  | cons d rest ih =>
    have hd : ¬ (d.product_name == row.product_name) = true := by
      simpa using h d (List.mem_cons_self d rest)
    simp only [List.map_cons, if_neg hd]
    rw [ih (fun x hx => h x (List.mem_cons_of_mem d hx))]

/-- One aggregation step adds the row quantity to exactly the matching key. -/
theorem getDeliveredQuantity_addDelivered (acc : List DeliveredItem) (row : BatchItemRow)
    (name : String)
    (hnd : (acc.map (fun d => d.product_name)).Nodup) :
    getDeliveredQuantity (addDelivered acc row) name
      = getDeliveredQuantity acc name
        + (if row.product_name = name then row.quantity else 0) := by
  induction acc with
  | nil =>
    unfold addDelivered
    simp only [List.any_nil, Bool.false_eq_true, if_false, List.nil_append]
    rw [getDeliveredQuantity_cons, getDeliveredQuantity_nil, zero_add]
  | cons d rest ih =>
    rw [List.map_cons, List.nodup_cons] at hnd
    obtain ⟨hd_notin, hnd_rest⟩ := hnd
    have hd_not_rest : ∀ x ∈ rest, x.product_name ≠ d.product_name := by
      intro x hx heq
      exact hd_notin (heq ▸ List.mem_map.mpr ⟨x, hx, rfl⟩)
    by_cases hany : ((d :: rest).any fun x => x.product_name == row.product_name) = true
    · unfold addDelivered
      rw [if_pos hany]
      simp only [List.map_cons]
      by_cases hdr : d.product_name = row.product_name
      · -- the update hits the head; the rest contains no matching key
        have hrest_eq : rest.map (fun x =>
            if x.product_name == row.product_name then
              { x with total_delivered := x.total_delivered + row.quantity }
            else x) = rest :=
          map_update_eq_self rest row (fun x hx => hdr ▸ hd_not_rest x hx)
        rw [hrest_eq, if_pos (by simpa using hdr)]
        rw [getDeliveredQuantity_cons, getDeliveredQuantity_cons]
        by_cases hdn : d.product_name = name
        · rw [if_pos hdn, if_pos hdn, if_pos (hdr ▸ hdn)]
        · rw [if_neg hdn, if_neg hdn, if_neg (fun h => hdn (hdr.symm ▸ h)), add_zero]
      · -- the update happens inside the rest
        have hany_rest : (rest.any fun x => x.product_name == row.product_name) = true := by
          rcases List.any_eq_true.mp hany with ⟨x, hx, hpx⟩
          rcases List.mem_cons.mp hx with rfl | hx2
          · exact absurd (by simpa using hpx) hdr
          · exact List.any_eq_true.mpr ⟨x, hx2, hpx⟩
        have ihr := ih hnd_rest
        unfold addDelivered at ihr
        rw [if_pos hany_rest] at ihr
        rw [if_neg (by simpa using hdr)]
        rw [getDeliveredQuantity_cons, getDeliveredQuantity_cons]
        by_cases hdn : d.product_name = name
        · rw [if_pos hdn, if_pos hdn,
            if_neg (fun h => hdr (by rw [hdn, h])), add_zero]
        · rw [if_neg hdn, if_neg hdn, ihr]
    · -- no key matches anywhere: the entry is appended at the end
      unfold addDelivered
      rw [if_neg hany]
      have hall : ∀ x ∈ d :: rest, x.product_name ≠ row.product_name := by
        intro x hx heq
        exact hany (List.any_eq_true.mpr ⟨x, hx, by simpa using heq⟩)
      have hrest_app : rest ++
          [({ product_name := row.product_name, total_delivered := row.quantity } :
            DeliveredItem)] = addDelivered rest row := by
        unfold addDelivered
        rw [if_neg (fun hc => by
          rcases List.any_eq_true.mp hc with ⟨x, hx, hpx⟩
          exact hall x (List.mem_cons_of_mem d hx) (by simpa using hpx))]
      rw [List.cons_append, getDeliveredQuantity_cons, getDeliveredQuantity_cons, hrest_app]
      by_cases hdn : d.product_name = name
      · rw [if_pos hdn, if_pos hdn,
          if_neg (fun h => hall d (List.mem_cons_self d rest) (by rw [hdn, h])), add_zero]
      · rw [if_neg hdn, if_neg hdn, ih hnd_rest]

/-- The aggregation object keeps pairwise-distinct keys. -/
theorem addDelivered_nodup (acc : List DeliveredItem) (row : BatchItemRow)
    (hnd : (acc.map (fun d => d.product_name)).Nodup) :
    ((addDelivered acc row).map (fun d => d.product_name)).Nodup := by
  unfold addDelivered
  by_cases hany : (acc.any fun x => x.product_name == row.product_name) = true
  · rw [if_pos hany, List.map_map]
    have : ((fun d => d.product_name) ∘ (fun d =>
        if d.product_name == row.product_name then
          { d with total_delivered := d.total_delivered + row.quantity }
        else d)) = fun (d : DeliveredItem) => d.product_name := by
      funext d
      by_cases h : (d.product_name == row.product_name) = true
      · simp [Function.comp, h]
      · simp [Function.comp, h]
    rw [this]
    exact hnd
  · rw [if_neg hany, List.map_append]
    rw [List.nodup_append]
    refine ⟨hnd, List.nodup_singleton _, ?_⟩
    intro a ha hb
    have ha2 : a = row.product_name := by simpa using hb
    rcases List.mem_map.mp ha with ⟨x, hx, rfl⟩
    exact hany (List.any_eq_true.mpr ⟨x, hx, by simpa using ha2⟩)

/-- Spec-side delivered sum unfolds on cons. -/
theorem deliveredQuantityForSpec_cons (b : BatchItemRow) (bs : List BatchItemRow)
    (name : String) :
    deliveredQuantityForSpec (b :: bs) name
      = (if b.product_name = name then b.quantity else 0)
        + deliveredQuantityForSpec bs name := by
  unfold deliveredQuantityForSpec
  by_cases h : b.product_name = name
  · rw [List.filter_cons_of_pos (by simpa using h), List.map_cons, List.sum_cons, if_pos h]
  · rw [List.filter_cons_of_neg (by simpa using h), if_neg h, zero_add]

/-- Folding the aggregation over a batch-item list adds the per-name sums. -/
theorem getDeliveredQuantity_foldl (bs : List BatchItemRow) (acc : List DeliveredItem)
    (name : String)
    (hnd : (acc.map (fun d => d.product_name)).Nodup) :
    getDeliveredQuantity (bs.foldl addDelivered acc) name
      = getDeliveredQuantity acc name + deliveredQuantityForSpec bs name := by
  induction bs generalizing acc with
  | nil =>
    unfold deliveredQuantityForSpec
    simp
  | cons b bs ih =>
    rw [List.foldl_cons, ih (addDelivered acc b) (addDelivered_nodup acc b hnd),
      getDeliveredQuantity_addDelivered acc b name hnd, deliveredQuantityForSpec_cons]
    ring

/-- The aggregated lookup agrees with the specification's per-name sum. -/
theorem getDeliveredQuantity_aggregateDelivered (bs : List BatchItemRow) (name : String) :
    getDeliveredQuantity (aggregateDelivered bs) name = deliveredQuantityForSpec bs name := by
  unfold aggregateDelivered
  rw [getDeliveredQuantity_foldl bs [] name (by simp), getDeliveredQuantity_nil, zero_add]

/-! ### C1: remaining quantity -/

/-- Claim C1, counterexample: the remaining quantity computed by
`getRemainingQuantity` is not clamped at 0 — with 1 ordered and 2 delivered
of product "A" the calculator reports `-1`, while the claimed clamped value
is `0`. -/
theorem C1_remaining_not_clamped :
    getRemainingQuantity
        (aggregateDelivered [{ product_name := "A", quantity := 2 }])
        { id := "i1", product_id := "p1", product_name := "A",
          quantity := 1, unit_price := 5, subtotal := 5 }
      = -1
    ∧ remainingQuantitySpec [{ product_name := "A", quantity := 2 }]
        { id := "i1", product_id := "p1", product_name := "A",
          quantity := 1, unit_price := 5, subtotal := 5 }
      = 0 := by
  constructor <;> rfl

/-- Claim C1, amended: for every line item, the remaining-to-ship quantity
equals the ordered quantity minus the sum of delivered quantities for the
item's product name across all batch items (case-sensitive exact match,
0 when no entry matches), with NO clamping at 0: the difference is returned
as is, even when negative. -/
theorem C1_remaining_eq_ordered_sub_delivered (item : TransactionItem)
    (batchItems : List BatchItemRow) :
    getRemainingQuantity (aggregateDelivered batchItems) item
      = item.quantity - deliveredQuantityForSpec batchItems item.product_name := by
  unfold getRemainingQuantity
  rw [getDeliveredQuantity_aggregateDelivered]

/-! ### C2: aggregate completion check -/

/-- Claim C2: the order-completeness check is true iff the sum of all ordered
quantities is at most the sum of all delivered quantities — an aggregate
comparison, not per product; in particular over-delivering product "A" by 5
while under-delivering product "B" by 5 still counts as complete. -/
theorem C2_isOrderComplete_aggregate :
    (∀ (txItems : List TransactionItem) (allDeliveredItems : List BatchItemRow),
      isOrderComplete txItems allDeliveredItems = true
        ↔ (txItems.map (fun item => item.quantity)).sum
            ≤ (allDeliveredItems.map (fun item => item.quantity)).sum)
    ∧ isOrderComplete
        [{ id := "1", product_id := "p", product_name := "A",
           quantity := 10, unit_price := 1, subtotal := 10 },
         { id := "2", product_id := "p", product_name := "B",
           quantity := 5, unit_price := 1, subtotal := 5 }]
        [{ product_name := "A", quantity := 15 },
         { product_name := "B", quantity := 0 }] = true := by
  constructor
  · intro txItems allDeliveredItems
    unfold isOrderComplete
    simp [ge_iff_le]
  · rfl

/-! ### Delivery-batch creation (`DeliveryBatchForm.handleSubmit`) -/

/-- JS `String.prototype.padStart(n, c)`: pad on the left up to length `n`
(a longer string is returned unchanged). -/
def padStart (s : String) (n : Nat) (c : Char) : String :=
  if n ≤ s.length then s else String.mk (List.replicate (n - s.length) c) ++ s

/-- Batch-number generation in `handleSubmit`:
`` `DEL-${dateStr}-${String(batchCount + 1).padStart(3, "0")}` ``. -/
def generateBatchNumber (dateStr : String) (batchCount : Nat) : String :=
  "DEL-" ++ dateStr ++ "-" ++ padStart (toString (batchCount + 1)) 3 '0'

/-- The clamping applied by `handleQuantityChange`:
`if (quantity < 0) quantity = 0; if (quantity > maxQuantity) quantity = maxQuantity`. -/
def clampQuantity (quantity maxQuantity : Int) : Int :=
  let q1 := if quantity < 0 then 0 else quantity
  if q1 > maxQuantity then maxQuantity else q1

/-- JS object update `{ ...prev, [itemId]: quantity }` on the insertion-ordered
entries of `selectedItems`. -/
def setSelected (selected : List (String × Int)) (itemId : String) (quantity : Int) :
    List (String × Int) :=
  if selected.any (fun p => p.1 == itemId) then
    selected.map (fun p => if p.1 == itemId then (p.1, quantity) else p)
  else selected ++ [(itemId, quantity)]

/-- `handleQuantityChange` in `InvoiceForm.tsx`: clamp the requested quantity
into `[0, maxQuantity]` and record it; no error is ever raised. -/
def handleQuantityChange (selected : List (String × Int)) (itemId : String)
    (quantity maxQuantity : Int) : List (String × Int) :=
  setSelected selected itemId (clampQuantity quantity maxQuantity)

/-- A row of the `delivery_batches` table as inserted by `handleSubmit`. -/
structure DeliveryBatchRow where
  id : String
  transaction_id : String
  batch_number : String
  notes : Option String
deriving DecidableEq

/-- A row of the `delivery_batch_items` table as inserted by `handleSubmit`. -/
structure DeliveryBatchItemRow where
  batch_id : String
  transaction_item_id : String
  product_name : String
  quantity : Int
  unit_price : Rat
  subtotal : Rat
deriving DecidableEq

/-- The slice of the datastore touched by delivery-batch creation. -/
structure DB where
  batches : List DeliveryBatchRow
  batchItems : List DeliveryBatchItemRow
  deliveryStatus : String
deriving DecidableEq

/-- Outcomes of the three datastore writes issued by `handleSubmit`; `none`
means the write succeeds, `some msg` that it fails with `msg`. -/
structure WriteEnv where
  batchInsertError : Option String
  itemsInsertError : Option String
  statusUpdateError : Option String
deriving DecidableEq

/-- What `handleSubmit` reports to the user: a validation toast, an error
toast from the catch block, or the success toast carrying the batch number. -/
inductive SubmitOutcome where
  | validationError
  | persistError (msg : String)
  | success (batchNumber : String)
deriving DecidableEq

/-- Result of one `handleSubmit` run: the datastore afterwards, the reported
outcome, and whether the delivery-status update was issued at all. -/
structure SubmitResult where
  db : DB
  outcome : SubmitOutcome
  statusUpdateIssued : Bool
deriving DecidableEq

/-- Construction of `batchItemsData` in `handleSubmit`: for each selected
entry, `items.find((i) => i.id === itemId)!` and the insert payload
`{ batch_id, transaction_item_id, product_name, quantity, unit_price,
subtotal: Number(item.unit_price) * quantity }`. A failed lookup makes the
non-null assertion blow up (modelled as `none`). -/
def buildBatchItems (items : List TransactionItem) (batchId : String) :
    List (String × Int) → Option (List DeliveryBatchItemRow)
  | [] => some []
  | p :: rest =>
    match items.find? (fun i => i.id == p.1) with
    | none => none
    | some item =>
      match buildBatchItems items batchId rest with
      | none => none
      | some l =>
        some ({ batch_id := batchId
                transaction_item_id := p.1
                product_name := item.product_name
                quantity := p.2
                unit_price := item.unit_price
                subtotal := item.unit_price * (p.2 : Rat) } :: l)

/-- `handleSubmit` in `DeliveryBatchForm`: validate the selection, generate
the batch number, insert the batch row, insert the batch-item rows, and —
when previously delivered plus this batch meets the ordered total — issue the
delivery-status update, whose own failure is not checked by the source. -/
def handleSubmit (transactionId : String) (items : List TransactionItem)
    (deliveredItems : List DeliveredItem) (selectedItems : List (String × Int))
    (batchCount : Nat) (dateStr : String) (notes : Option String)
    (newBatchId : String) (env : WriteEnv) (db : DB) : SubmitResult :=
  let itemsToDeliver := selectedItems.filter (fun p => decide (p.2 > 0))
  if itemsToDeliver.length = 0 then
    { db := db, outcome := .validationError, statusUpdateIssued := false }
  else
    let batchNumber := generateBatchNumber dateStr batchCount
    match env.batchInsertError with
    | some e => { db := db, outcome := .persistError e, statusUpdateIssued := false }
    | none =>
      let db1 : DB := { db with batches := db.batches ++
        [{ id := newBatchId, transaction_id := transactionId,
           batch_number := batchNumber, notes := notes }] }
      match buildBatchItems items newBatchId itemsToDeliver with
      | none =>
        { db := db1, outcome := .persistError "TypeError", statusUpdateIssued := false }
      | some batchItemsData =>
        match env.itemsInsertError with
        | some e => { db := db1, outcome := .persistError e, statusUpdateIssued := false }
        | none =>
          let db2 : DB := { db1 with batchItems := db1.batchItems ++ batchItemsData }
          let totalOrdered : Int := (items.map (fun item => item.quantity)).sum
          let totalDeliveredBefore : Int :=
            (deliveredItems.map (fun d => d.total_delivered)).sum
          let totalDeliveredNow : Int := (itemsToDeliver.map (fun p => p.2)).sum
          if totalDeliveredBefore + totalDeliveredNow ≥ totalOrdered then
            let db3 : DB := match env.statusUpdateError with
              | none => { db2 with deliveryStatus := "delivered" }
              | some _ => db2
            { db := db3, outcome := .success batchNumber, statusUpdateIssued := true }
          else
            { db := db2, outcome := .success batchNumber, statusUpdateIssued := false }

/-! ### C7: empty selection -/

/-- Claim C7: submitting with no item selected at a positive quantity fails
with a validation error and performs no writes at all: the datastore is
returned unchanged and no status update is issued. -/
theorem C7_empty_selection_rejected (transactionId : String)
    (items : List TransactionItem) (deliveredItems : List DeliveredItem)
    (selectedItems : List (String × Int)) (batchCount : Nat) (dateStr : String)
    (notes : Option String) (newBatchId : String) (env : WriteEnv) (db : DB)
    (hsel : (selectedItems.filter (fun p => decide (p.2 > 0))).length = 0) :
    handleSubmit transactionId items deliveredItems selectedItems batchCount
        dateStr notes newBatchId env db
      = { db := db, outcome := .validationError, statusUpdateIssued := false } := by
  unfold handleSubmit
  rw [if_pos hsel]

/-- Witness for C7 at a concrete input: all selected quantities are 0. -/
theorem C7_empty_selection_rejected_witness :
    (([("i1", (0 : Int)), ("i2", 0)].filter (fun p => decide (p.2 > 0))).length = 0)
    ∧ handleSubmit "t1"
        [{ id := "i1", product_id := "p1", product_name := "A",
           quantity := 5, unit_price := 5, subtotal := 25 }]
        [] [("i1", 0), ("i2", 0)] 0 "20250101" none "b1"
        { batchInsertError := none, itemsInsertError := none, statusUpdateError := none }
        { batches := [], batchItems := [], deliveryStatus := "pending" }
      = { db := { batches := [], batchItems := [], deliveryStatus := "pending" },
          outcome := .validationError, statusUpdateIssued := false } :=
  ⟨by decide,
   C7_empty_selection_rejected "t1"
     [{ id := "i1", product_id := "p1", product_name := "A",
        quantity := 5, unit_price := 5, subtotal := 25 }]
     [] [("i1", 0), ("i2", 0)] 0 "20250101" none "b1"
     { batchInsertError := none, itemsInsertError := none, statusUpdateError := none }
     { batches := [], batchItems := [], deliveryStatus := "pending" }
     (by decide)⟩

/-! ### C3: no atomicity between the batch insert and the items insert -/

/-- Claim C3, counterexample: an execution in which the batch-items insert
fails after the batch insert succeeded leaves the batch header row persisted
with no batch-item rows, so the two writes are not one atomic unit. -/
theorem C3_batch_header_without_items :
    (handleSubmit "t1"
        [{ id := "i1", product_id := "p1", product_name := "A",
           quantity := 5, unit_price := 5, subtotal := 25 }]
        [] [("i1", 2)] 0 "20250101" none "b1"
        { batchInsertError := none, itemsInsertError := some "items insert failed",
          statusUpdateError := none }
        { batches := [], batchItems := [], deliveryStatus := "pending" }).db.batches
      = [{ id := "b1", transaction_id := "t1", batch_number := "DEL-20250101-001",
           notes := none }]
    ∧ (handleSubmit "t1"
        [{ id := "i1", product_id := "p1", product_name := "A",
           quantity := 5, unit_price := 5, subtotal := 25 }]
        [] [("i1", 2)] 0 "20250101" none "b1"
        { batchInsertError := none, itemsInsertError := some "items insert failed",
          statusUpdateError := none }
        { batches := [], batchItems := [], deliveryStatus := "pending" }).db.batchItems
      = [] := by
  constructor <;> rfl

/-- Claim C3, amended: the batch row and its item rows are written by two
separate inserts with no enclosing transaction; whenever the items insert
fails after the batch insert succeeded, the batch header stays persisted with
no item rows, and the operation is reported as failed. -/
theorem C3_separate_writes (transactionId : String) (items : List TransactionItem)
    (deliveredItems : List DeliveredItem) (selectedItems : List (String × Int))
    (batchCount : Nat) (dateStr : String) (notes : Option String)
    (newBatchId : String) (env : WriteEnv) (db : DB) (e : String)
    (bis : List DeliveryBatchItemRow)
    (hsel : (selectedItems.filter (fun p => decide (p.2 > 0))).length ≠ 0)
    (hb : env.batchInsertError = none)
    (hbuild : buildBatchItems items newBatchId
        (selectedItems.filter (fun p => decide (p.2 > 0))) = some bis)
    (hi : env.itemsInsertError = some e) :
    handleSubmit transactionId items deliveredItems selectedItems batchCount
        dateStr notes newBatchId env db
      = { db := { db with batches := db.batches ++
            [{ id := newBatchId, transaction_id := transactionId,
               batch_number := generateBatchNumber dateStr batchCount,
               notes := notes }] },
          outcome := .persistError e, statusUpdateIssued := false } := by
  unfold handleSubmit
  rw [if_neg hsel, hb, hbuild, hi]

/-- Witness for the amended C3 at a concrete input. -/
theorem C3_separate_writes_witness :
    (([("i1", (2 : Int))].filter (fun p => decide (p.2 > 0))).length ≠ 0)
    ∧ buildBatchItems
        [{ id := "i1", product_id := "p1", product_name := "A",
           quantity := 5, unit_price := 5, subtotal := 25 }] "b1"
        ([("i1", (2 : Int))].filter (fun p => decide (p.2 > 0)))
      = some [{ batch_id := "b1", transaction_item_id := "i1", product_name := "A",
                quantity := 2, unit_price := 5, subtotal := 10 }]
    ∧ handleSubmit "t1"
        [{ id := "i1", product_id := "p1", product_name := "A",
           quantity := 5, unit_price := 5, subtotal := 25 }]
        [] [("i1", 2)] 0 "20250101" none "b1"
        { batchInsertError := none, itemsInsertError := some "boom",
          statusUpdateError := none }
        { batches := [], batchItems := [], deliveryStatus := "pending" }
      = { db := { batches := [{ id := "b1", transaction_id := "t1",
                                batch_number := generateBatchNumber "20250101" 0,
                                notes := none }],
                  batchItems := [], deliveryStatus := "pending" },
          outcome := .persistError "boom", statusUpdateIssued := false } :=
  ⟨by decide, by norm_num [buildBatchItems],
   C3_separate_writes "t1"
     [{ id := "i1", product_id := "p1", product_name := "A",
        quantity := 5, unit_price := 5, subtotal := 25 }]
     [] [("i1", 2)] 0 "20250101" none "b1"
     { batchInsertError := none, itemsInsertError := some "boom",
       statusUpdateError := none }
     { batches := [], batchItems := [], deliveryStatus := "pending" }
     "boom"
     [{ batch_id := "b1", transaction_item_id := "i1", product_name := "A",
        quantity := 2, unit_price := 5, subtotal := 10 }]
     (by decide) rfl (by norm_num [buildBatchItems]) rfl⟩

/-! ### C5: conditional delivery-status update -/

/-- Claim C5: on the success path (both inserts succeed, the status write
succeeds), the transaction's delivery status is set to "delivered" exactly
when previously delivered plus this batch's quantities meets or exceeds the
ordered total; below the threshold the field is left unchanged and no update
is issued. -/
theorem C5_status_delivered_iff_threshold (transactionId : String)
    (items : List TransactionItem) (deliveredItems : List DeliveredItem)
    (selectedItems : List (String × Int)) (batchCount : Nat) (dateStr : String)
    (notes : Option String) (newBatchId : String) (env : WriteEnv) (db : DB)
    (bis : List DeliveryBatchItemRow)
    (hsel : (selectedItems.filter (fun p => decide (p.2 > 0))).length ≠ 0)
    (hb : env.batchInsertError = none)
    (hbuild : buildBatchItems items newBatchId
        (selectedItems.filter (fun p => decide (p.2 > 0))) = some bis)
    (hi : env.itemsInsertError = none)
    (hu : env.statusUpdateError = none) :
    ((deliveredItems.map (fun d => d.total_delivered)).sum
        + ((selectedItems.filter (fun p => decide (p.2 > 0))).map (fun p => p.2)).sum
        ≥ (items.map (fun item => item.quantity)).sum
      → (handleSubmit transactionId items deliveredItems selectedItems batchCount
            dateStr notes newBatchId env db).db.deliveryStatus = "delivered"
        ∧ (handleSubmit transactionId items deliveredItems selectedItems batchCount
            dateStr notes newBatchId env db).statusUpdateIssued = true)
    ∧ ((deliveredItems.map (fun d => d.total_delivered)).sum
        + ((selectedItems.filter (fun p => decide (p.2 > 0))).map (fun p => p.2)).sum
        < (items.map (fun item => item.quantity)).sum
      → (handleSubmit transactionId items deliveredItems selectedItems batchCount
            dateStr notes newBatchId env db).db.deliveryStatus = db.deliveryStatus
        ∧ (handleSubmit transactionId items deliveredItems selectedItems batchCount
            dateStr notes newBatchId env db).statusUpdateIssued = false) := by
  unfold handleSubmit
  rw [if_neg hsel]
  simp only [hb, hbuild, hi, hu]
  constructor
  · intro h
    rw [if_pos h]
    exact ⟨rfl, rfl⟩
  · intro h
    rw [if_neg (not_le.mpr h)]
    exact ⟨rfl, rfl⟩

/-- Witness for C5 at a concrete input: 2 of 5 units delivered before, 3 in
this batch, threshold met, status becomes "delivered". -/
theorem C5_status_delivered_iff_threshold_witness :
    (([("i1", (3 : Int))].filter (fun p => decide (p.2 > 0))).length ≠ 0)
    ∧ buildBatchItems
        [{ id := "i1", product_id := "p1", product_name := "A",
           quantity := 5, unit_price := 5, subtotal := 25 }] "b1"
        ([("i1", (3 : Int))].filter (fun p => decide (p.2 > 0)))
      = some [{ batch_id := "b1", transaction_item_id := "i1", product_name := "A",
                quantity := 3, unit_price := 5, subtotal := 15 }]
    ∧ (([{ product_name := "A", total_delivered := 2 }].map
          (fun (d : DeliveredItem) => d.total_delivered)).sum
        + (([("i1", (3 : Int))].filter (fun p => decide (p.2 > 0))).map (fun p => p.2)).sum
        ≥ ([{ id := "i1", product_id := "p1", product_name := "A",
              quantity := 5, unit_price := 5, subtotal := 25 }].map
            (fun (item : TransactionItem) => item.quantity)).sum
      → (handleSubmit "t1"
            [{ id := "i1", product_id := "p1", product_name := "A",
               quantity := 5, unit_price := 5, subtotal := 25 }]
            [{ product_name := "A", total_delivered := 2 }]
            [("i1", 3)] 1 "20250101" none "b1"
            { batchInsertError := none, itemsInsertError := none,
              statusUpdateError := none }
            { batches := [], batchItems := [], deliveryStatus := "pending" }).db.deliveryStatus
          = "delivered"
        ∧ (handleSubmit "t1"
            [{ id := "i1", product_id := "p1", product_name := "A",
               quantity := 5, unit_price := 5, subtotal := 25 }]
            [{ product_name := "A", total_delivered := 2 }]
            [("i1", 3)] 1 "20250101" none "b1"
            { batchInsertError := none, itemsInsertError := none,
              statusUpdateError := none }
            { batches := [], batchItems := [], deliveryStatus := "pending" }).statusUpdateIssued
          = true) :=
  ⟨by decide, by norm_num [buildBatchItems],
   (C5_status_delivered_iff_threshold "t1"
     [{ id := "i1", product_id := "p1", product_name := "A",
        quantity := 5, unit_price := 5, subtotal := 25 }]
     [{ product_name := "A", total_delivered := 2 }]
     [("i1", 3)] 1 "20250101" none "b1"
     { batchInsertError := none, itemsInsertError := none, statusUpdateError := none }
     { batches := [], batchItems := [], deliveryStatus := "pending" }
     [{ batch_id := "b1", transaction_item_id := "i1", product_name := "A",
        quantity := 3, unit_price := 5, subtotal := 15 }]
     (by decide) rfl (by norm_num [buildBatchItems]) rfl rfl).1⟩

/-! ### C9: which persistence failures surface -/

/-- Claim C9, counterexample: with the delivery-status update failing
("update failed") on an otherwise complete batch, `handleSubmit` still
reports success — the update's error object is never checked by the source,
so this persistence failure is silently swallowed and the status stays
"pending". -/
theorem C9_update_failure_swallowed :
    (handleSubmit "t1"
        [{ id := "i1", product_id := "p1", product_name := "A",
           quantity := 2, unit_price := 5, subtotal := 10 }]
        [] [("i1", 2)] 0 "20250101" none "b1"
        { batchInsertError := none, itemsInsertError := none,
          statusUpdateError := some "update failed" }
        { batches := [], batchItems := [], deliveryStatus := "pending" }).outcome
      = .success "DEL-20250101-001"
    ∧ (handleSubmit "t1"
        [{ id := "i1", product_id := "p1", product_name := "A",
           quantity := 2, unit_price := 5, subtotal := 10 }]
        [] [("i1", 2)] 0 "20250101" none "b1"
        { batchInsertError := none, itemsInsertError := none,
          statusUpdateError := some "update failed" }
        { batches := [], batchItems := [], deliveryStatus := "pending" }).statusUpdateIssued
      = true
    ∧ (handleSubmit "t1"
        [{ id := "i1", product_id := "p1", product_name := "A",
           quantity := 2, unit_price := 5, subtotal := 10 }]
        [] [("i1", 2)] 0 "20250101" none "b1"
        { batchInsertError := none, itemsInsertError := none,
          statusUpdateError := some "update failed" }
        { batches := [], batchItems := [], deliveryStatus := "pending" }).db.deliveryStatus
      = "pending" := by
  refine ⟨rfl, rfl, rfl⟩

/-- Claim C9, amended: a failure of the batch insert or of the batch-items
insert surfaces to the caller as an error outcome, but a failure of the
conditional delivery-status update is not checked by the source: the
operation still reports success even though the status write failed and the
status field is unchanged. -/
theorem C9_failure_surfacing (transactionId : String) (items : List TransactionItem)
    (deliveredItems : List DeliveredItem) (selectedItems : List (String × Int))
    (batchCount : Nat) (dateStr : String) (notes : Option String)
    (newBatchId : String) (env : WriteEnv) (db : DB)
    (hsel : (selectedItems.filter (fun p => decide (p.2 > 0))).length ≠ 0) :
    (∀ e, env.batchInsertError = some e →
      (handleSubmit transactionId items deliveredItems selectedItems batchCount
          dateStr notes newBatchId env db).outcome = .persistError e)
    ∧ (∀ e bis, env.batchInsertError = none →
        buildBatchItems items newBatchId
            (selectedItems.filter (fun p => decide (p.2 > 0))) = some bis →
        env.itemsInsertError = some e →
        (handleSubmit transactionId items deliveredItems selectedItems batchCount
            dateStr notes newBatchId env db).outcome = .persistError e)
    ∧ (∀ e bis, env.batchInsertError = none →
        buildBatchItems items newBatchId
            (selectedItems.filter (fun p => decide (p.2 > 0))) = some bis →
        env.itemsInsertError = none →
        env.statusUpdateError = some e →
        (deliveredItems.map (fun d => d.total_delivered)).sum
          + ((selectedItems.filter (fun p => decide (p.2 > 0))).map (fun p => p.2)).sum
          ≥ (items.map (fun item => item.quantity)).sum →
        (handleSubmit transactionId items deliveredItems selectedItems batchCount
            dateStr notes newBatchId env db).outcome
          = .success (generateBatchNumber dateStr batchCount)
        ∧ (handleSubmit transactionId items deliveredItems selectedItems batchCount
            dateStr notes newBatchId env db).statusUpdateIssued = true
        ∧ (handleSubmit transactionId items deliveredItems selectedItems batchCount
            dateStr notes newBatchId env db).db.deliveryStatus = db.deliveryStatus) := by
  refine ⟨?_, ?_, ?_⟩
  · intro e he
    unfold handleSubmit
    rw [if_neg hsel]
    simp only [he]
  · intro e bis hb hbuild hi
    unfold handleSubmit
    rw [if_neg hsel]
    simp only [hb, hbuild, hi]
  · intro e bis hb hbuild hi hu hth
    unfold handleSubmit
    rw [if_neg hsel]
    simp only [hb, hbuild, hi, hu]
    rw [if_pos hth]
    exact ⟨rfl, rfl, rfl⟩

/-- Witness for the amended C9 at a concrete input (batch insert fails). -/
theorem C9_failure_surfacing_witness :
    (([("i1", (2 : Int))].filter (fun p => decide (p.2 > 0))).length ≠ 0)
    ∧ ({ batchInsertError := some "db down", itemsInsertError := none,
         statusUpdateError := none } : WriteEnv).batchInsertError = some "db down"
    ∧ (handleSubmit "t1"
        [{ id := "i1", product_id := "p1", product_name := "A",
           quantity := 2, unit_price := 5, subtotal := 10 }]
        [] [("i1", 2)] 0 "20250101" none "b1"
        { batchInsertError := some "db down", itemsInsertError := none,
          statusUpdateError := none }
        { batches := [], batchItems := [], deliveryStatus := "pending" }).outcome
      = .persistError "db down" :=
  ⟨by decide, rfl,
   (C9_failure_surfacing "t1"
     [{ id := "i1", product_id := "p1", product_name := "A",
        quantity := 2, unit_price := 5, subtotal := 10 }]
     [] [("i1", 2)] 0 "20250101" none "b1"
     { batchInsertError := some "db down", itemsInsertError := none,
       statusUpdateError := none }
     { batches := [], batchItems := [], deliveryStatus := "pending" }
     (by decide)).1 "db down" rfl⟩

/-! ### C10: batch-item rows copy name and price, subtotal is price times quantity -/

/-- Claim C10: every batch-item row built by `handleSubmit` references a
selected transaction item (the one `items.find` locates by id) and carries
that item's product name and unit price, with subtotal equal to the unit
price times the shipped quantity. -/
theorem C10_batch_item_fields (items : List TransactionItem) (batchId : String)
    (sel : List (String × Int)) (bis : List DeliveryBatchItemRow)
    (hbuild : buildBatchItems items batchId sel = some bis) :
    ∀ b ∈ bis, b.batch_id = batchId
      ∧ ∃ item, items.find? (fun i => i.id == b.transaction_item_id) = some item
        ∧ b.product_name = item.product_name
        ∧ b.unit_price = item.unit_price
        ∧ b.subtotal = item.unit_price * (b.quantity : Rat) := by
  induction sel generalizing bis with
  | nil =>
    unfold buildBatchItems at hbuild
    obtain rfl := Option.some.inj hbuild
    intro b hb
    exact absurd hb (List.not_mem_nil b)
  | cons p rest ih =>
    unfold buildBatchItems at hbuild
    cases hfind : items.find? (fun i => i.id == p.1) with
    | none => rw [hfind] at hbuild; exact Option.noConfusion hbuild
    | some item =>
      rw [hfind] at hbuild
      cases hrest : buildBatchItems items batchId rest with
      | none => rw [hrest] at hbuild; exact Option.noConfusion hbuild
      | some l =>
        rw [hrest] at hbuild
        obtain rfl := Option.some.inj hbuild
        intro b hb
        rcases List.mem_cons.mp hb with rfl | hb2
        · exact ⟨rfl, item, hfind, rfl, rfl, rfl⟩
        · exact ih l hrest b hb2

/-- Witness for C10 at a concrete input. -/
theorem C10_batch_item_fields_witness :
    buildBatchItems
        [{ id := "i1", product_id := "p1", product_name := "A",
           quantity := 5, unit_price := 5, subtotal := 25 }] "b1" [("i1", 2)]
      = some [{ batch_id := "b1", transaction_item_id := "i1", product_name := "A",
                quantity := 2, unit_price := 5, subtotal := 10 }]
    ∧ (({ batch_id := "b1", transaction_item_id := "i1", product_name := "A",
          quantity := 2, unit_price := 5, subtotal := 10 } : DeliveryBatchItemRow).batch_id
        = "b1"
      ∧ ∃ item,
          ([{ id := "i1", product_id := "p1", product_name := "A",
              quantity := 5, unit_price := 5, subtotal := 25 }] :
            List TransactionItem).find?
            (fun i => i.id ==
              ({ batch_id := "b1", transaction_item_id := "i1", product_name := "A",
                 quantity := 2, unit_price := 5,
                 subtotal := 10 } : DeliveryBatchItemRow).transaction_item_id)
          = some item
        ∧ ({ batch_id := "b1", transaction_item_id := "i1", product_name := "A",
             quantity := 2, unit_price := 5,
             subtotal := 10 } : DeliveryBatchItemRow).product_name = item.product_name
        ∧ ({ batch_id := "b1", transaction_item_id := "i1", product_name := "A",
             quantity := 2, unit_price := 5,
             subtotal := 10 } : DeliveryBatchItemRow).unit_price = item.unit_price
        ∧ ({ batch_id := "b1", transaction_item_id := "i1", product_name := "A",
             quantity := 2, unit_price := 5,
             subtotal := 10 } : DeliveryBatchItemRow).subtotal
          = item.unit_price *
            (({ batch_id := "b1", transaction_item_id := "i1", product_name := "A",
                quantity := 2, unit_price := 5,
                subtotal := 10 } : DeliveryBatchItemRow).quantity : Rat)) :=
  ⟨by norm_num [buildBatchItems],
   (C10_batch_item_fields
     [{ id := "i1", product_id := "p1", product_name := "A",
        quantity := 5, unit_price := 5, subtotal := 25 }] "b1" [("i1", 2)]
     [{ batch_id := "b1", transaction_item_id := "i1", product_name := "A",
        quantity := 2, unit_price := 5, subtotal := 10 }]
     (by norm_num [buildBatchItems]))
     { batch_id := "b1", transaction_item_id := "i1", product_name := "A",
       quantity := 2, unit_price := 5, subtotal := 10 }
     (List.mem_cons_self _ _)⟩

/-! ### C4: out-of-range quantities are clamped, not rejected -/

/-- Claim C4, counterexample: requesting quantity 10 for an item whose
remaining quantity is 3 (ordered 5, delivered 2) is not rejected: the input
handler clamps it to 3, submission reports success, and a batch-item row
with the clamped quantity 3 is persisted — no validation error and a write
occurred. -/
theorem C4_over_quantity_written :
    (handleSubmit "t1"
        [{ id := "i1", product_id := "p1", product_name := "A",
           quantity := 5, unit_price := 5, subtotal := 25 }]
        (aggregateDelivered [{ product_name := "A", quantity := 2 }])
        (handleQuantityChange [] "i1" 10
          (getRemainingQuantity
            (aggregateDelivered [{ product_name := "A", quantity := 2 }])
            { id := "i1", product_id := "p1", product_name := "A",
              quantity := 5, unit_price := 5, subtotal := 25 }))
        0 "20250101" none "b1"
        { batchInsertError := none, itemsInsertError := none, statusUpdateError := none }
        { batches := [], batchItems := [], deliveryStatus := "pending" }).outcome
      = .success "DEL-20250101-001"
    ∧ (handleSubmit "t1"
        [{ id := "i1", product_id := "p1", product_name := "A",
           quantity := 5, unit_price := 5, subtotal := 25 }]
        (aggregateDelivered [{ product_name := "A", quantity := 2 }])
        (handleQuantityChange [] "i1" 10
          (getRemainingQuantity
            (aggregateDelivered [{ product_name := "A", quantity := 2 }])
            { id := "i1", product_id := "p1", product_name := "A",
              quantity := 5, unit_price := 5, subtotal := 25 }))
        0 "20250101" none "b1"
        { batchInsertError := none, itemsInsertError := none, statusUpdateError := none }
        { batches := [], batchItems := [], deliveryStatus := "pending" }).db.batchItems
      = [{ batch_id := "b1", transaction_item_id := "i1", product_name := "A",
           quantity := 3, unit_price := 5, subtotal := 15 }] := by
  constructor
  · rfl
  · norm_num [handleSubmit, handleQuantityChange, setSelected, clampQuantity,
      getRemainingQuantity, aggregateDelivered, addDelivered, getDeliveredQuantity,
      generateBatchNumber, padStart, buildBatchItems]

/-- Clamping helper: for a non-negative bound the two successive `if`s of
`handleQuantityChange` compute exactly `min maxQuantity (max 0 quantity)`. -/
theorem clampQuantity_eq_min_max (quantity maxQuantity : Int) (hm : 0 ≤ maxQuantity) :
    clampQuantity quantity maxQuantity = min maxQuantity (max 0 quantity) := by
  unfold clampQuantity
  rcases lt_or_le quantity 0 with h1 | h1
  · rw [if_pos h1, if_neg (not_lt.mpr hm), max_eq_left h1.le, min_eq_right hm]
  · rw [if_neg (not_lt.mpr h1), max_eq_right h1]
    rcases lt_or_le maxQuantity quantity with h2 | h2
    · rw [if_pos h2, min_eq_left h2.le]
    · rw [if_neg (not_lt.mpr h2), min_eq_right h2]

/-- Claim C4, amended: a requested quantity outside `[0, remaining]` is not
rejected with a validation error; `handleQuantityChange` clamps it into that
range (negative to 0, above the bound to the bound) and records the clamped
value, which later flows into the persisted batch-item row. -/
theorem C4_quantity_clamped_into_range (selected : List (String × Int))
    (itemId : String) (quantity maxQuantity : Int) (hm : 0 ≤ maxQuantity) :
    handleQuantityChange selected itemId quantity maxQuantity
      = setSelected selected itemId (min maxQuantity (max 0 quantity))
    ∧ 0 ≤ clampQuantity quantity maxQuantity
    ∧ clampQuantity quantity maxQuantity ≤ maxQuantity := by
  have h := clampQuantity_eq_min_max quantity maxQuantity hm
  refine ⟨?_, ?_, ?_⟩
  · unfold handleQuantityChange
    rw [h]
  · rw [h]
    exact le_min hm (le_max_left 0 quantity)
  · rw [h]
    exact min_le_left maxQuantity (max 0 quantity)

/-- Witness for the amended C4 at a concrete input: a request of 10 against a
bound of 3 is stored as 3. -/
theorem C4_quantity_clamped_into_range_witness :
    (0 : Int) ≤ 3
    ∧ (handleQuantityChange [] "i1" 10 3
        = setSelected [] "i1" (min 3 (max 0 10))
      ∧ 0 ≤ clampQuantity 10 3
      ∧ clampQuantity 10 3 ≤ 3) :=
  ⟨by decide, C4_quantity_clamped_into_range [] "i1" 10 3 (by decide)⟩

/-! ### C6: batch-number format -/

/-- The date the browser supplies through `new Date()`, reduced to the fields
`toISOString().slice(0, 10)` can observe. -/
structure JsDate where
  year : Nat
  month : Nat
  day : Nat

/-- Date part of JS `Date.prototype.toISOString`: 4-digit year, 2-digit month
and day, hyphen-separated. -/
def toISOStringYMD (d : JsDate) : String :=
  padStart (toString d.year) 4 '0' ++ "-" ++ padStart (toString d.month) 2 '0'
    ++ "-" ++ padStart (toString d.day) 2 '0'

/-- JS `toISOString`: the date part followed by `T` and the time-of-day part. -/
def toISOString (d : JsDate) (timeOfDay : String) : String :=
  toISOStringYMD d ++ "T" ++ timeOfDay

/-- The `dateStr` computed by `handleSubmit`: `now.toISOString()`, sliced to
its first 10 characters, with every hyphen removed. -/
def jsDateStr (d : JsDate) (timeOfDay : String) : String :=
  (((toISOString d timeOfDay).data.take 10).filter (fun c => !(c == '-'))).asString

/-- Spec-side rendering of the current date as `YYYYMMDD`. -/
def yyyymmdd (d : JsDate) : String :=
  padStart (toString d.year) 4 '0' ++ padStart (toString d.month) 2 '0'
    ++ padStart (toString d.day) 2 '0'

/-- Spec-side batch number: `DEL-`, the date as `YYYYMMDD`, a hyphen, and
`N + 1` zero-padded to 3 digits. -/
def batchNumberSpec (d : JsDate) (n : Nat) : String :=
  "DEL-" ++ yyyymmdd d ++ "-" ++ padStart (toString (n + 1)) 3 '0'

theorem padStart_data (s : String) (n : Nat) (c : Char) :
    (padStart s n c).data
      = if n ≤ s.length then s.data else List.replicate (n - s.length) c ++ s.data := by
  unfold padStart
  split
  · rfl
  · rw [String.data_append]

theorem padStart_length (s : String) (n : Nat) (c : Char) :
    (padStart s n c).length = max n s.length := by
  unfold padStart
  by_cases h : n ≤ s.length
  · rw [if_pos h, max_eq_right h]
  · rw [if_neg h, String.length_append]
    have h1 : (String.mk (List.replicate (n - s.length) c)).length = n - s.length :=
      List.length_replicate _ _
    rw [h1, max_eq_left (by omega)]
    omega

theorem padStart_mem (s : String) (n : Nat) (c : Char) (x : Char)
    (hx : x ∈ (padStart s n c).data) : x = c ∨ x ∈ s.data := by
  rw [padStart_data] at hx
  split at hx
  · exact Or.inr hx
  · rcases List.mem_append.mp hx with h | h
    · exact Or.inl (List.eq_of_mem_replicate h)
    · exact Or.inr h

theorem digitChar_ne_hyphen (m : Nat) (hm : m < 10) : Nat.digitChar m ≠ '-' := by
  interval_cases m <;> decide

theorem toDigitsCore_mem (b : Nat) (hb : 0 < b) (f : Nat) :
    ∀ (n : Nat) (ds : List Char) (c : Char), c ∈ Nat.toDigitsCore b f n ds →
      c ∈ ds ∨ ∃ m, m < b ∧ c = Nat.digitChar m := by
  induction f with
  | zero => intro n ds c hc; exact Or.inl hc
  | succ f ih =>
    intro n ds c hc
    unfold Nat.toDigitsCore at hc
    by_cases hnb : n / b = 0
    · rw [if_pos hnb] at hc
      rcases List.mem_cons.mp hc with rfl | hds
      · exact Or.inr ⟨n % b, Nat.mod_lt n hb, rfl⟩
      · exact Or.inl hds
    · rw [if_neg hnb] at hc
      rcases ih (n / b) (Nat.digitChar (n % b) :: ds) c hc with h | h
      · rcases List.mem_cons.mp h with rfl | hds
        · exact Or.inr ⟨n % b, Nat.mod_lt n hb, rfl⟩
        · exact Or.inl hds
      · exact Or.inr h

theorem toString_nat_ne_hyphen (n : Nat) (c : Char) (hc : c ∈ (toString n).data) :
    c ≠ '-' := by
  have h2 : c ∈ Nat.toDigits 10 n := hc
  unfold Nat.toDigits at h2
  rcases toDigitsCore_mem 10 (by norm_num) (n + 1) n [] c h2 with h | h
  · exact absurd h (List.not_mem_nil c)
  · obtain ⟨m, hm2, rfl⟩ := h
    exact digitChar_ne_hyphen m hm2

theorem padStart_nat_ne_hyphen (n k : Nat) (c : Char)
    (hc : c ∈ (padStart (toString n) k '0').data) : (!(c == '-')) = true := by
  rcases padStart_mem (toString n) k '0' c hc with rfl | h
  · decide
  · simpa using toString_nat_ne_hyphen n c h

theorem padStart_nat_length (n k e : Nat) (he : 0 < e) (hk : e ≤ k) (hn : n < 10 ^ e) :
    (padStart (toString n) k '0').length = k := by
  rw [padStart_length]
  have := Nat.repr_length n e he hn
  have h2 : (toString n).length ≤ k := le_trans this hk
  rw [max_eq_left h2]

/-- The `dateStr` pipeline of the source (ISO string, slice to 10 characters,
strip hyphens) produces exactly the spec's `YYYYMMDD` rendering. -/
theorem jsDateStr_eq_yyyymmdd (d : JsDate) (t : String)
    (hy : d.year < 10000) (hm : d.month < 100) (hd : d.day < 100) :
    jsDateStr d t = yyyymmdd d := by
  unfold jsDateStr toISOString toISOStringYMD yyyymmdd
  have l4 : (padStart (toString d.year) 4 '0').data.length = 4 :=
    padStart_nat_length d.year 4 4 (by decide) (le_refl 4) (by norm_num; omega)
  have l2m : (padStart (toString d.month) 2 '0').data.length = 2 :=
    padStart_nat_length d.month 2 2 (by decide) (le_refl 2) (by norm_num; omega)
  have l2d : (padStart (toString d.day) 2 '0').data.length = 2 :=
    padStart_nat_length d.day 2 2 (by decide) (le_refl 2) (by norm_num; omega)
  have hdata : (padStart (toString d.year) 4 '0' ++ "-" ++ padStart (toString d.month) 2 '0'
      ++ "-" ++ padStart (toString d.day) 2 '0' ++ "T" ++ t).data
      = ((padStart (toString d.year) 4 '0').data
          ++ '-' :: ((padStart (toString d.month) 2 '0').data
          ++ '-' :: (padStart (toString d.day) 2 '0').data)) ++ 'T' :: t.data := by
    simp [String.data_append]
  rw [hdata]
  have hlen : ((padStart (toString d.year) 4 '0').data
      ++ '-' :: ((padStart (toString d.month) 2 '0').data
      ++ '-' :: (padStart (toString d.day) 2 '0').data)).length = 10 := by
    simp [l4, l2m, l2d]
  rw [List.take_append_of_le_length (by omega), ← hlen, List.take_length]
  have f4 : (padStart (toString d.year) 4 '0').data.filter (fun c => !(c == '-'))
      = (padStart (toString d.year) 4 '0').data :=
    List.filter_eq_self.mpr (fun a ha => padStart_nat_ne_hyphen d.year 4 a ha)
  have f2m : (padStart (toString d.month) 2 '0').data.filter (fun c => !(c == '-'))
      = (padStart (toString d.month) 2 '0').data :=
    List.filter_eq_self.mpr (fun a ha => padStart_nat_ne_hyphen d.month 2 a ha)
  have f2d : (padStart (toString d.day) 2 '0').data.filter (fun c => !(c == '-'))
      = (padStart (toString d.day) 2 '0').data :=
    List.filter_eq_self.mpr (fun a ha => padStart_nat_ne_hyphen d.day 2 a ha)
  rw [List.filter_append, f4, List.filter_cons]
  simp only [show ((!('-' == '-')) = false) from rfl, Bool.false_eq_true, if_false]
  rw [List.filter_append, f2m, List.filter_cons]
  simp only [show ((!('-' == '-')) = false) from rfl, Bool.false_eq_true, if_false]
  rw [f2d]
  have hcat : (padStart (toString d.year) 4 '0' ++ padStart (toString d.month) 2 '0'
      ++ padStart (toString d.day) 2 '0').data
      = (padStart (toString d.year) 4 '0').data ++ ((padStart (toString d.month) 2 '0').data
        ++ (padStart (toString d.day) 2 '0').data) := by
    simp [String.data_append]
  rw [List.asString, ← hcat]

/-- Claim C6: for a transaction with `N` pre-existing batches and a current
date within the common ranges, the generated batch number is exactly `DEL-`
followed by the date as `YYYYMMDD`, a hyphen, and `N + 1` zero-padded to 3
digits; the date component has 8 characters. -/
theorem C6_batch_number_format (d : JsDate) (timeOfDay : String)
    (batches : List DeliveryBatchRow)
    (hy : d.year < 10000) (hm : d.month < 100) (hd : d.day < 100) :
    generateBatchNumber (jsDateStr d timeOfDay) batches.length
      = batchNumberSpec d batches.length
    ∧ (jsDateStr d timeOfDay).length = 8 := by
  constructor
  · unfold generateBatchNumber batchNumberSpec
    rw [jsDateStr_eq_yyyymmdd d timeOfDay hy hm hd]
  · rw [jsDateStr_eq_yyyymmdd d timeOfDay hy hm hd]
    unfold yyyymmdd
    rw [String.length_append, String.length_append,
      padStart_nat_length d.year 4 4 (by decide) (le_refl 4) (by norm_num; omega),
      padStart_nat_length d.month 2 2 (by decide) (le_refl 2) (by norm_num; omega),
      padStart_nat_length d.day 2 2 (by decide) (le_refl 2) (by norm_num; omega)]

/-- Witness for C6 at a concrete input: 9 June 2025, no pre-existing batches;
the generated number is `DEL-20250609-001`. -/
theorem C6_batch_number_format_witness :
    ((2025 : Nat) < 10000 ∧ (6 : Nat) < 100 ∧ (9 : Nat) < 100)
    ∧ (generateBatchNumber
          (jsDateStr { year := 2025, month := 6, day := 9 } "12:34:56.789Z")
          ([] : List DeliveryBatchRow).length
        = batchNumberSpec { year := 2025, month := 6, day := 9 }
            ([] : List DeliveryBatchRow).length
      ∧ (jsDateStr { year := 2025, month := 6, day := 9 } "12:34:56.789Z").length = 8)
    ∧ generateBatchNumber
        (jsDateStr { year := 2025, month := 6, day := 9 } "12:34:56.789Z") 0
      = "DEL-20250609-001" :=
  ⟨⟨by decide, by decide, by decide⟩,
   C6_batch_number_format { year := 2025, month := 6, day := 9 } "12:34:56.789Z" []
     (by decide) (by decide) (by decide),
   by decide⟩

/-! ### C8: retention cleanup job (`supabase/functions/cleanup-old-files`) -/

/-- A storage object as returned by the bucket listing. -/
structure StorageFile where
  name : String
  created_at : Int
deriving DecidableEq

/-- Interface `DeleteResult` of the cleanup function. -/
structure DeleteResult where
  fileName : String
  success : Bool
  error : Option String
deriving DecidableEq

/-- The JSON responses the handler can produce: the "no files" reply, the
"no old files" reply, the completed report, or the catch-all 500. -/
inductive CleanupResponse where
  | noFiles
  | noOldFiles (totalFiles : Nat)
  | completed (deletedCount failedCount totalFilesInBucket : Nat)
      (results : List DeleteResult)
  | failure (message : String)
deriving DecidableEq

/-- HTTP status attached to each response by the handler. -/
def CleanupResponse.status : CleanupResponse → Nat
  | .failure _ => 500
  | _ => 200

/-- `DAYS_TO_KEEP` in the source. -/
def retentionDays : Nat := 14

/-- Milliseconds per day; `cutoffDate.setDate(getDate() - 14)` in UTC moves
the clock back exactly 14 of these. -/
def msPerDay : Int := 86400000

/-- The cutoff timestamp: now minus the retention window. -/
def cutoffFor (nowMs : Int) : Int := nowMs - (retentionDays : Int) * msPerDay

/-- The filter of the source: `new Date(file.created_at) < cutoffDate`. -/
def isOldFile (nowMs : Int) (f : StorageFile) : Bool :=
  decide (f.created_at < cutoffFor nowMs)

/-- One iteration of the deletion loop: a failed `remove` (error object or
thrown exception, supplied by the environment as `deleteError`) is recorded
with its message, a successful one without. -/
def deleteOutcome (deleteError : String → Option String) (f : StorageFile) : DeleteResult :=
  match deleteError f.name with
  | some err => { fileName := f.name, success := false, error := some err }
  | none => { fileName := f.name, success := true, error := none }

/-- The request handler: a failed listing throws into the catch block (500);
otherwise the old files are each attempted in order and the aggregate report
is returned with status 200. -/
def cleanupOldFiles (nowMs : Int) (listResult : Except String (List StorageFile))
    (deleteError : String → Option String) : CleanupResponse :=
  match listResult with
  | .error e => .failure e
  | .ok files =>
    if files.length = 0 then .noFiles
    else
      if (files.filter (isOldFile nowMs)).length = 0 then .noOldFiles files.length
      else
        .completed
          (((files.filter (isOldFile nowMs)).map (deleteOutcome deleteError)).filter
            (fun r => r.success)).length
          (((files.filter (isOldFile nowMs)).map (deleteOutcome deleteError)).filter
            (fun r => !r.success)).length
          files.length
          ((files.filter (isOldFile nowMs)).map (deleteOutcome deleteError))

/-- Any run whose listing succeeded responds 200, whatever the per-file
outcomes. -/
theorem cleanup_ok_status (nowMs : Int) (files : List StorageFile)
    (deleteError : String → Option String) :
    (cleanupOldFiles nowMs (Except.ok files) deleteError).status = 200 := by
  simp only [cleanupOldFiles]
  split
  · rfl
  · split <;> rfl

/-- Claim C8: the handler returns 500 exactly when the initial listing
fails; when it reports a completed scan, every file older than the cutoff
was attempted (in listing order), `deletedCount` counts the successful
deletions, `failedCount` the errored ones — each carrying an error
message — and the run is still a 200 despite per-file failures. -/
theorem C8_cleanup_best_effort (nowMs : Int)
    (listResult : Except String (List StorageFile))
    (deleteError : String → Option String) :
    ((cleanupOldFiles nowMs listResult deleteError).status = 500
      ↔ ∃ e, listResult = Except.error e)
    ∧ (∀ files, listResult = Except.ok files →
        ∀ dc fc tf rs,
          cleanupOldFiles nowMs listResult deleteError
            = CleanupResponse.completed dc fc tf rs →
          rs.map (fun r => r.fileName)
            = (files.filter (isOldFile nowMs)).map (fun f => f.name)
          ∧ dc = ((files.filter (isOldFile nowMs)).filter
              (fun f => (deleteError f.name).isNone)).length
          ∧ fc = ((files.filter (isOldFile nowMs)).filter
              (fun f => (deleteError f.name).isSome)).length
          ∧ tf = files.length
          ∧ (∀ r ∈ rs, r.success = false → ∃ m, r.error = some m)) := by
  constructor
  · cases listResult with
    | error e =>
      constructor
      · intro _
        exact ⟨e, rfl⟩
      · intro _
        rfl
    | ok files =>
      rw [cleanup_ok_status]
      constructor
      · intro h
        exact absurd h (by decide)
      · rintro ⟨e, he⟩
        exact Except.noConfusion he
  · rintro files rfl dc fc tf rs heq
    simp only [cleanupOldFiles] at heq
    split at heq
    · exact CleanupResponse.noConfusion heq
    · split at heq
      · exact CleanupResponse.noConfusion heq
      · obtain ⟨h1, h2, h3, h4⟩ := CleanupResponse.completed.inj heq
        subst h4
        refine ⟨?_, ?_, ?_, h3.symm, ?_⟩
        · rw [List.map_map]
          apply List.map_congr_left
          intro f _
          simp only [Function.comp_apply, deleteOutcome]
          cases deleteError f.name <;> rfl
        · rw [← h1, List.filter_map, List.length_map]
          congr 1
          apply List.filter_congr
          intro f _
          simp only [Function.comp_apply, deleteOutcome]
          cases deleteError f.name <;> rfl
        · rw [← h2, List.filter_map, List.length_map]
          congr 1
          apply List.filter_congr
          intro f _
          simp only [Function.comp_apply, deleteOutcome]
          cases deleteError f.name <;> rfl
        · intro r hr hfail
          rcases List.mem_map.mp hr with ⟨f, hf, rfl⟩
          unfold deleteOutcome at hfail ⊢
          cases hdel : deleteError f.name with
          | some err => exact ⟨err, rfl⟩
          | none => rw [hdel] at hfail; exact Bool.noConfusion hfail

/-- Witness for C8 at a concrete input: three files aged 20, 15 and 1 days;
the deletion of the first errors, the second succeeds, the third is not
old enough to be touched. -/
theorem C8_cleanup_best_effort_witness :
    cleanupOldFiles 1760000000000
        (Except.ok
          [{ name := "a.png", created_at := 1758272000000 },
           { name := "b.png", created_at := 1758704000000 },
           { name := "c.png", created_at := 1759913600000 }])
        (fun n => if n == "a.png" then some "locked" else none)
      = CleanupResponse.completed 1 1 3
          [{ fileName := "a.png", success := false, error := some "locked" },
           { fileName := "b.png", success := true, error := none }]
    ∧ (([{ fileName := "a.png", success := false, error := some "locked" },
         { fileName := "b.png", success := true, error := none }] :
          List DeleteResult).map (fun r => r.fileName)
        = (([{ name := "a.png", created_at := 1758272000000 },
             { name := "b.png", created_at := 1758704000000 },
             { name := "c.png", created_at := 1759913600000 }] :
            List StorageFile).filter (isOldFile 1760000000000)).map (fun f => f.name)
      ∧ 1 = ((([{ name := "a.png", created_at := 1758272000000 },
               { name := "b.png", created_at := 1758704000000 },
               { name := "c.png", created_at := 1759913600000 }] :
              List StorageFile).filter (isOldFile 1760000000000)).filter
            (fun f => ((fun n => if n == "a.png" then some "locked" else none)
              f.name).isNone)).length
      ∧ 1 = ((([{ name := "a.png", created_at := 1758272000000 },
               { name := "b.png", created_at := 1758704000000 },
               { name := "c.png", created_at := 1759913600000 }] :
              List StorageFile).filter (isOldFile 1760000000000)).filter
            (fun f => ((fun n => if n == "a.png" then some "locked" else none)
              f.name).isSome)).length
      ∧ 3 = ([{ name := "a.png", created_at := 1758272000000 },
              { name := "b.png", created_at := 1758704000000 },
              { name := "c.png", created_at := 1759913600000 }] :
            List StorageFile).length
      ∧ (∀ r ∈ ([{ fileName := "a.png", success := false, error := some "locked" },
                 { fileName := "b.png", success := true, error := none }] :
              List DeleteResult), r.success = false → ∃ m, r.error = some m)) :=
  ⟨by decide,
   (C8_cleanup_best_effort 1760000000000
     (Except.ok
       [{ name := "a.png", created_at := 1758272000000 },
        { name := "b.png", created_at := 1758704000000 },
        { name := "c.png", created_at := 1759913600000 }])
     (fun n => if n == "a.png" then some "locked" else none)).2
     [{ name := "a.png", created_at := 1758272000000 },
      { name := "b.png", created_at := 1758704000000 },
      { name := "c.png", created_at := 1759913600000 }]
     rfl 1 1 3
     [{ fileName := "a.png", success := false, error := some "locked" },
      { fileName := "b.png", success := true, error := none }]
     (by decide)⟩
